import Mathlib

/-!
Shallow embedding of the rov-accounting ledger (src/models.py, src/app.py,
src/database.py) and proofs of its specified properties.

Amounts are modelled as rationals, dates as (year, month, day) triples, and
the transaction store as a list of transaction rows in insertion order.
-/

namespace RovAccounting

/-- models.py `TransactionType`: exactly the two variants INCOME and EXPENSE. -/
inductive TransactionType where
  | INCOME
  | EXPENSE
deriving DecidableEq, Repr

/-- models.py dates (`Column(Date)`): calendar date as year/month/day. -/
structure Date where
  year : Nat
  month : Nat
  day : Nat
deriving DecidableEq, Repr

/-- Date comparison, lexicographic on (year, month, day); used for the
`Transaction.date >= start_date` filter in `get_profit_loss_data`. -/
def Date.le (a b : Date) : Bool :=
  if a.year ≠ b.year then a.year < b.year
  else if a.month ≠ b.month then a.month < b.month
  else a.day ≤ b.day

/-- `func.strftime("%Y-%m", Transaction.date)` in `get_profit_loss_data`:
the calendar-month grouping key of a date. -/
def Date.monthKey (d : Date) : Nat × Nat := (d.year, d.month)

/-- models.py `Account`: id, display name, currency code. -/
structure Account where
  id : Nat
  name : String
  currency_code : String
deriving DecidableEq, Repr

/-- models.py `Category`: id and unique name. -/
structure Category where
  id : Nat
  name : String
deriving DecidableEq, Repr

/-- models.py `ExchangeRate`: one dated USD→INR rate row. -/
structure ExchangeRate where
  id : Nat
  date : Date
  usd_to_inr : ℚ
deriving DecidableEq, Repr

/-- models.py `Transaction`: one ledger row. `exchange_rate` and
`transfer_id` are the nullable transfer columns. -/
structure Transaction where
  id : Nat
  date : Date
  type : TransactionType
  amount : ℚ
  description : Option String
  counterparty : Option String
  is_void : Bool
  exchange_rate : Option ℚ
  transfer_id : Option Nat
  account_id : Nat
  category_id : Nat
deriving DecidableEq, Repr

lemma decide_income_eq_expense :
    (decide (TransactionType.INCOME = TransactionType.EXPENSE)) = false := rfl

lemma decide_expense_eq_income :
    (decide (TransactionType.EXPENSE = TransactionType.INCOME)) = false := rfl

lemma decide_income_eq_income :
    (decide (TransactionType.INCOME = TransactionType.INCOME)) = true := rfl

lemma decide_expense_eq_expense :
    (decide (TransactionType.EXPENSE = TransactionType.EXPENSE)) = true := rfl

/-- models.py `TransactionType` `.value` strings: INCOME = "income",
EXPENSE = "expense". -/
def TransactionType.value : TransactionType → String
  | TransactionType.INCOME => "income"
  | TransactionType.EXPENSE => "expense"

/-- The Python runtime values compared at models.py:54: the ORM-loaded
`type` attribute is a `TransactionType` enum member, while
`TransactionType.INCOME.value` is a string. -/
inductive PyValue where
  | enumMember (t : TransactionType)
  | str (s : String)
deriving DecidableEq, Repr

/-- Python `==` on these values: a plain `enum.Enum` member compares by
identity, so it equals another value only when that value is the same
member; it never equals a string (and two strings compare by content). -/
def pyEq : PyValue → PyValue → Bool
  | PyValue.enumMember a, PyValue.enumMember b => a = b
  | PyValue.str a, PyValue.str b => a = b
  | _, _ => false

/-- models.py `Account.balance`, as the program executes it: fold over the
account's transactions, skipping voided rows; the branch test
`transaction.type == TransactionType.INCOME.value` compares the ORM-loaded
enum member with the string "income", which is false for every member, so
every non-void amount falls into the else branch and is subtracted. -/
def balance (transactions : List Transaction) : ℚ :=
  transactions.foldl
    (fun total t =>
      if t.is_void then total
      else if pyEq (PyValue.enumMember t.type)
          (PyValue.str (TransactionType.value TransactionType.INCOME)) then
        total + t.amount
      else total - t.amount)
    0

/-- app.py `get_account_balance`: the balance of the transactions whose
`account_id` matches the given account. -/
def get_account_balance (store : List Transaction) (account_id : Nat) : ℚ :=
  balance (store.filter (fun t => t.account_id = account_id))

/-- Sum of amounts over the non-void rows of the given type: the quantity
the spec's balance formula is built from. -/
def typeSum (ts : List Transaction) (ty : TransactionType) : ℚ :=
  ((ts.filter (fun t => !t.is_void && t.type = ty)).map (fun t => t.amount)).sum

/-- The contribution of one row to the balance the program computes: 0
when void, else −amount whatever the type. -/
def nonVoidAmount (t : Transaction) : ℚ :=
  if t.is_void then 0 else t.amount

lemma pyEq_member_str (t : TransactionType) (s : String) :
    pyEq (PyValue.enumMember t) (PyValue.str s) = false := rfl

lemma balance_go (ts : List Transaction) (init : ℚ) :
    ts.foldl
      (fun total t =>
        if t.is_void then total
        else if pyEq (PyValue.enumMember t.type)
            (PyValue.str (TransactionType.value TransactionType.INCOME)) then
          total + t.amount
        else total - t.amount)
      init = init - (ts.map nonVoidAmount).sum := by
  induction ts generalizing init with
  | nil => simp
  | cons t ts ih =>
    rw [List.foldl_cons, ih, List.map_cons, List.sum_cons]
    by_cases hv : t.is_void
    · simp [hv, nonVoidAmount]
    · simp [hv, nonVoidAmount, pyEq_member_str]
      ring

lemma balance_eq_neg_sum (ts : List Transaction) :
    balance ts = -(ts.map nonVoidAmount).sum := by
  simpa using balance_go ts 0

/-- C1 (code bug at models.py:54): the branch test compares an enum member
to the string "income" and is therefore always false, so the program's
balance subtracts every non-void amount regardless of type; on the failing
input — a single non-void INCOME transaction of amount 5 on account 7 —
the program returns −5 while the claimed formula ΣINCOME − ΣEXPENSE
gives +5. -/
theorem claim1_balance_bug :
    (∀ ts : List Transaction,
      balance ts = -((ts.filter (fun t => !t.is_void)).map (fun t => t.amount)).sum) ∧
    get_account_balance
      [{ id := 1, date := ⟨2024, 1, 1⟩, type := TransactionType.INCOME, amount := 5,
         description := none, counterparty := none, is_void := false,
         exchange_rate := none, transfer_id := none, account_id := 7, category_id := 3 }]
      7 = -5 ∧
    typeSum
        [{ id := 1, date := ⟨2024, 1, 1⟩, type := TransactionType.INCOME, amount := 5,
           description := none, counterparty := none, is_void := false,
           exchange_rate := none, transfer_id := none, account_id := 7, category_id := 3 }]
        TransactionType.INCOME -
      typeSum
        [{ id := 1, date := ⟨2024, 1, 1⟩, type := TransactionType.INCOME, amount := 5,
           description := none, counterparty := none, is_void := false,
           exchange_rate := none, transfer_id := none, account_id := 7, category_id := 3 }]
        TransactionType.EXPENSE = 5 := by
  refine ⟨?_, ?_, ?_⟩
  · intro ts
    rw [balance_eq_neg_sum]
    congr 1
    induction ts with
    | nil => simp
    | cons t ts ih =>
      by_cases hv : t.is_void <;> simp [List.filter_cons, nonVoidAmount, hv, ih]
  · norm_num [get_account_balance, balance, List.filter, pyEq]
  · norm_num [typeSum, List.filter, decide_income_eq_expense, decide_income_eq_income]

/-- app.py `void_transaction`: look up the first transaction with the given
id and set `is_void = True` on it; if none exists, report an error and leave
the store unchanged. -/
def void_transaction : List Transaction → Nat → List Transaction
  | [], _ => []
  | t :: ts, tid =>
    if t.id = tid then { t with is_void := true } :: ts
    else t :: void_transaction ts tid

/-- app.py `add_transaction_page` (submit path): the amount input widget
enforces `min_value=0.0`, so a negative amount is rejected as a validation
error before any write; otherwise a new non-void transaction row is
appended (exchange_rate and transfer_id left unset). `nid` is the
autoincrement id of the new row. -/
def add_transaction_page (store : List Transaction) (nid : Nat) (trans_date : Date)
    (ty : TransactionType) (amount : ℚ) (descr counterparty : String)
    (account_id category_id : Nat) : Except String (List Transaction) :=
  if amount < 0 then
    Except.error "Amount must be at least 0.00"
  else
    Except.ok (store ++
      [{ id := nid, date := trans_date, type := ty, amount := amount,
         description := some descr, counterparty := some counterparty,
         is_void := false, exchange_rate := none, transfer_id := none,
         account_id := account_id, category_id := category_id }])

lemma void_transaction_idem (store : List Transaction) (tid : Nat) :
    void_transaction (void_transaction store tid) tid = void_transaction store tid := by
  induction store with
  | nil => rfl
  | cons t ts ih =>
    by_cases h : t.id = tid
    · simp [void_transaction, h]
    · simp [void_transaction, h, ih]

/-- C3 (same code bug at models.py:54): because the program subtracts
every non-void amount, voiding the non-void INCOME transaction of amount 5
on account 7 moves its account's balance from −5 to 0 — a change of
+amount, where the claim asserts −amount for an INCOME row. Voiding twice
still leaves the store exactly as voiding once does. -/
theorem claim3_void_bug :
    get_account_balance
      [{ id := 1, date := ⟨2024, 1, 1⟩, type := TransactionType.INCOME, amount := 5,
         description := none, counterparty := none, is_void := false,
         exchange_rate := none, transfer_id := none, account_id := 7, category_id := 3 }]
      7 = -5 ∧
    get_account_balance
      (void_transaction
        [{ id := 1, date := ⟨2024, 1, 1⟩, type := TransactionType.INCOME, amount := 5,
           description := none, counterparty := none, is_void := false,
           exchange_rate := none, transfer_id := none, account_id := 7, category_id := 3 }] 1)
      7 = 0 ∧
    get_account_balance
      (void_transaction
        [{ id := 1, date := ⟨2024, 1, 1⟩, type := TransactionType.INCOME, amount := 5,
           description := none, counterparty := none, is_void := false,
           exchange_rate := none, transfer_id := none, account_id := 7, category_id := 3 }] 1)
      7 =
      get_account_balance
        [{ id := 1, date := ⟨2024, 1, 1⟩, type := TransactionType.INCOME, amount := 5,
           description := none, counterparty := none, is_void := false,
           exchange_rate := none, transfer_id := none, account_id := 7, category_id := 3 }]
        7 + 5 ∧
    (∀ (store : List Transaction) (tid : Nat),
      void_transaction (void_transaction store tid) tid = void_transaction store tid) := by
  refine ⟨?_, ?_, ?_, void_transaction_idem⟩ <;>
    norm_num [void_transaction, get_account_balance, balance, List.filter, pyEq]

/-- C4: `add_transaction` rejects a negative amount with a validation error
and inserts nothing; with amount 0 it succeeds and appends exactly one new
non-void transaction of amount 0. -/
theorem claim4_add_transaction (store : List Transaction) (nid : Nat) (d : Date)
    (ty : TransactionType) (amount : ℚ) (descr cp : String) (aid cid : Nat) :
    (amount < 0 →
      add_transaction_page store nid d ty amount descr cp aid cid =
        Except.error "Amount must be at least 0.00") ∧
    (∃ t : Transaction,
      add_transaction_page store nid d ty 0 descr cp aid cid = Except.ok (store ++ [t]) ∧
      t.is_void = false ∧ t.amount = 0 ∧ t.type = ty ∧ t.account_id = aid ∧
      t.category_id = cid) := by
  constructor
  · intro h
    simp [add_transaction_page, h]
  · refine
      ⟨{ id := nid, date := d, type := ty, amount := 0, description := some descr,
         counterparty := some cp, is_void := false, exchange_rate := none, transfer_id := none,
         account_id := aid, category_id := cid }, ?_, rfl, rfl, rfl, rfl, rfl⟩
    simp [add_transaction_page]

/-- Witness for C4: amount -1 is rejected with the validation error. -/
theorem claim4_add_transaction_witness :
    add_transaction_page [] 1 ⟨2024, 1, 1⟩ TransactionType.INCOME (-1) "d" "c" 1 1 =
      Except.error "Amount must be at least 0.00" :=
  (claim4_add_transaction [] 1 ⟨2024, 1, 1⟩ TransactionType.INCOME (-1) "d" "c" 1 1).1
    (by norm_num)

/-- app.py `get_all_accounts` display key: `f"{acc.name} ({acc.currency_code})"`. -/
def displayName (a : Account) : String := a.name ++ " (" ++ a.currency_code ++ ")"

/-- app.py `get_all_categories` lookup: the dict maps category name to id;
a lookup of a missing name is a KeyError, modelled as `none`. -/
def lookupCategory (cats : List Category) (n : String) : Option Nat :=
  (cats.find? (fun c => c.name = n)).map (fun c => c.id)

/-- Python's `"pat" in hay` substring test on character lists. -/
def containsSub (pat : List Char) : List Char → Bool
  | [] => pat.isEmpty
  | c :: t => pat.isPrefixOf (c :: t) || containsSub pat t

/-- Python's `pat in hay` substring containment on strings, as used by
`transfer_funds_page` for the `"USD" in from_account_name` test. -/
def strContains (hay pat : String) : Bool := containsSub pat.toList hay.toList

/-- app.py `transfer_funds_page` (submit path). Writes happen only when the
two selected display names differ. The withdrawal is an EXPENSE of `amount`
on the from-account under category "Inter-Account Transfer Out"; the
deposit is an INCOME on the to-account under "Inter-Account Transfer In"
of `amount * rate` when the from display name contains "USD" and
`amount / rate` otherwise; both lock `exchange_rate := rate`. A missing
reserved category raises before commit, so the session rolls back and the
store is unchanged; otherwise both rows are committed together. `nid` is
the autoincrement id of the first new row. -/
def transfer_funds_page (store : List Transaction) (cats : List Category)
    (nid : Nat) (trans_date : Date) (amount rate : ℚ)
    (fromAcc toAcc : Account) (descr : String) : List Transaction :=
  if displayName fromAcc = displayName toAcc then store
  else
    match lookupCategory cats "Inter-Account Transfer Out",
          lookupCategory cats "Inter-Account Transfer In" with
    | some outId, some inId =>
      let withdrawal : Transaction :=
        { id := nid, date := trans_date, type := TransactionType.EXPENSE, amount := amount,
          description := some descr, counterparty := some "Internal Transfer",
          is_void := false, exchange_rate := some rate, transfer_id := none,
          account_id := fromAcc.id, category_id := outId }
      let deposit_amount : ℚ :=
        if strContains (displayName fromAcc) "USD" then amount * rate else amount / rate
      let deposit : Transaction :=
        { id := nid + 1, date := trans_date, type := TransactionType.INCOME,
          amount := deposit_amount,
          description := some descr, counterparty := some "Internal Transfer",
          is_void := false, exchange_rate := some rate, transfer_id := none,
          account_id := toAcc.id, category_id := inId }
      store ++ [withdrawal, deposit]
    | _, _ => store

/-- database.py `init_db` seed account for USD (first row, so id 1). -/
def usd_account : Account :=
  { id := 1, name := "US Business Account", currency_code := "USD" }

/-- database.py `init_db` seed account for INR (second row, so id 2). -/
def inr_account : Account :=
  { id := 2, name := "India Business Account", currency_code := "INR" }

/-- database.py `init_db` `default_categories`, with autoincrement ids in
seed order. -/
def default_categories : List Category :=
  [⟨1, "Client Revenue"⟩, ⟨2, "Software Expense"⟩, ⟨3, "Salary"⟩,
   ⟨4, "Office Supplies"⟩, ⟨5, "Marketing"⟩, ⟨6, "Contractor Fees"⟩,
   ⟨7, "Inter-Account Transfer In"⟩, ⟨8, "Inter-Account Transfer Out"⟩,
   ⟨9, "Other Income"⟩, ⟨10, "Other Expense"⟩]

/-- C5: a transfer whose from- and to-account are the same account is
rejected before any write: the store is returned completely unchanged. -/
theorem claim5_transfer_same_account (store : List Transaction) (cats : List Category)
    (nid : Nat) (d : Date) (amount rate : ℚ) (a : Account) (descr : String) :
    transfer_funds_page store cats nid d amount rate a a descr = store := by
  simp [transfer_funds_page]

/-- C2: between the two seeded accounts, a transfer appends exactly two
rows: an EXPENSE of `amount` on the from-account under category
"Inter-Account Transfer Out" and an INCOME on the to-account under
"Inter-Account Transfer In", converted by `amount * rate` when the
from-account's currency is USD and `amount / rate` when it is INR; both
carry `exchange_rate = rate`. In general a transfer either appends both
rows or leaves the store unchanged (never one row only). -/
theorem claim2_transfer_pair (store : List Transaction) (nid : Nat) (d : Date)
    (amount rate : ℚ) (fromAcc toAcc : Account) (descr : String)
    (h : (fromAcc = usd_account ∧ toAcc = inr_account) ∨
         (fromAcc = inr_account ∧ toAcc = usd_account)) :
    (∃ w dep : Transaction,
      transfer_funds_page store default_categories nid d amount rate fromAcc toAcc descr =
        store ++ [w, dep] ∧
      w.type = TransactionType.EXPENSE ∧ w.amount = amount ∧
      w.account_id = fromAcc.id ∧
      lookupCategory default_categories "Inter-Account Transfer Out" = some w.category_id ∧
      w.exchange_rate = some rate ∧
      dep.type = TransactionType.INCOME ∧
      dep.amount = (if fromAcc.currency_code = "USD" then amount * rate else amount / rate) ∧
      dep.account_id = toAcc.id ∧
      lookupCategory default_categories "Inter-Account Transfer In" = some dep.category_id ∧
      dep.exchange_rate = some rate) ∧
    (∀ (store' : List Transaction) (cats : List Category) (f t : Account),
      transfer_funds_page store' cats nid d amount rate f t descr = store' ∨
      ∃ w dep : Transaction,
        transfer_funds_page store' cats nid d amount rate f t descr = store' ++ [w, dep]) := by
  constructor
  · rcases h with ⟨hf, ht⟩ | ⟨hf, ht⟩ <;> subst hf <;> subst ht
    · exact
        ⟨{ id := nid, date := d, type := TransactionType.EXPENSE, amount := amount,
           description := some descr, counterparty := some "Internal Transfer",
           is_void := false, exchange_rate := some rate, transfer_id := none,
           account_id := 1, category_id := 8 },
         { id := nid + 1, date := d, type := TransactionType.INCOME, amount := amount * rate,
           description := some descr, counterparty := some "Internal Transfer",
           is_void := false, exchange_rate := some rate, transfer_id := none,
           account_id := 2, category_id := 7 },
         rfl, rfl, rfl, rfl, rfl, rfl, rfl, rfl, rfl, rfl, rfl⟩
    · exact
        ⟨{ id := nid, date := d, type := TransactionType.EXPENSE, amount := amount,
           description := some descr, counterparty := some "Internal Transfer",
           is_void := false, exchange_rate := some rate, transfer_id := none,
           account_id := 2, category_id := 8 },
         { id := nid + 1, date := d, type := TransactionType.INCOME, amount := amount / rate,
           description := some descr, counterparty := some "Internal Transfer",
           is_void := false, exchange_rate := some rate, transfer_id := none,
           account_id := 1, category_id := 7 },
         rfl, rfl, rfl, rfl, rfl, rfl, rfl, rfl, rfl, rfl, rfl⟩
  · intro store' cats f t
    by_cases hname : displayName f = displayName t
    · left
      simp [transfer_funds_page, hname]
    · rcases hout : lookupCategory cats "Inter-Account Transfer Out" with _ | outId
      · left
        simp [transfer_funds_page, hname, hout]
      · rcases hin : lookupCategory cats "Inter-Account Transfer In" with _ | inId
        · left
          simp [transfer_funds_page, hname, hout, hin]
        · right
          exact
            ⟨{ id := nid, date := d, type := TransactionType.EXPENSE, amount := amount,
               description := some descr, counterparty := some "Internal Transfer",
               is_void := false, exchange_rate := some rate, transfer_id := none,
               account_id := f.id, category_id := outId },
             { id := nid + 1, date := d, type := TransactionType.INCOME,
               amount := if strContains (displayName f) "USD" then amount * rate
                 else amount / rate,
               description := some descr, counterparty := some "Internal Transfer",
               is_void := false, exchange_rate := some rate, transfer_id := none,
               account_id := t.id, category_id := inId },
             by simp [transfer_funds_page, hname, hout, hin]⟩

/-- Witness for C2: a concrete transfer of 100 USD at rate 167/2 = 83.5
from the seeded USD account to the seeded INR account writes exactly two
rows. -/
theorem claim2_transfer_pair_witness :
    (transfer_funds_page [] default_categories 1 ⟨2024, 1, 15⟩ 100 (167 / 2)
      usd_account inr_account "Inter-Account Transfer").length = 2 := by
  obtain ⟨w, dep, heq, -⟩ :=
    (claim2_transfer_pair [] 1 ⟨2024, 1, 15⟩ 100 (167 / 2) usd_account inr_account
      "Inter-Account Transfer" (Or.inl ⟨rfl, rfl⟩)).1
  rw [heq]
  rfl

/-- Store states reachable through the app's transaction operations,
starting from the empty transaction table: adding a transaction, voiding
one, and transferring funds. -/
inductive Reachable : List Transaction → Prop where
  | empty : Reachable []
  | add (s : List Transaction) (nid : Nat) (d : Date) (ty : TransactionType) (amount : ℚ)
      (descr cp : String) (aid cid : Nat) (s' : List Transaction) :
      Reachable s →
      add_transaction_page s nid d ty amount descr cp aid cid = Except.ok s' →
      Reachable s'
  | void (s : List Transaction) (tid : Nat) :
      Reachable s → Reachable (void_transaction s tid)
  | transfer (s : List Transaction) (cats : List Category) (nid : Nat) (d : Date)
      (amount rate : ℚ) (f t : Account) (descr : String) :
      Reachable s →
      Reachable (transfer_funds_page s cats nid d amount rate f t descr)

lemma mem_void_transaction (s : List Transaction) (tid : Nat) (t : Transaction)
    (ht : t ∈ void_transaction s tid) :
    ∃ u ∈ s, t.transfer_id = u.transfer_id := by
  induction s with
  | nil => simp [void_transaction] at ht
  | cons u s ih =>
    by_cases h : u.id = tid
    · simp only [void_transaction, if_pos h, List.mem_cons] at ht
      rcases ht with ht | ht
      · exact ⟨u, by simp, by simp [ht]⟩
      · exact ⟨t, by simp [ht], rfl⟩
    · simp only [void_transaction, if_neg h, List.mem_cons] at ht
      rcases ht with ht | ht
      · exact ⟨u, by simp, by simp [ht]⟩
      · obtain ⟨v, hv, hid⟩ := ih ht
        exact ⟨v, by simp [hv], hid⟩

lemma mem_transfer_funds_page (store : List Transaction) (cats : List Category)
    (nid : Nat) (d : Date) (amount rate : ℚ) (f a : Account) (descr : String)
    (t : Transaction) (ht : t ∈ transfer_funds_page store cats nid d amount rate f a descr) :
    t ∈ store ∨ t.transfer_id = none := by
  by_cases hname : displayName f = displayName a
  · simp only [transfer_funds_page, if_pos hname] at ht
    exact Or.inl ht
  · rcases hout : lookupCategory cats "Inter-Account Transfer Out" with _ | outId <;>
      rcases hin : lookupCategory cats "Inter-Account Transfer In" with _ | inId <;>
      simp only [transfer_funds_page, if_neg hname, hout, hin, List.mem_append,
        List.mem_cons, List.mem_singleton] at ht
    · exact Or.inl ht
    · exact Or.inl ht
    · exact Or.inl ht
    · rcases ht with ht | ht | ht | ht
      · exact Or.inl ht
      · exact Or.inr (by simp [ht])
      · exact Or.inr (by simp [ht])
      · cases ht

/-- C7: the transfer operation never populates `transfer_id`, so in every
store state reachable through the app's operations, every transaction's
`transfer_id` is unset. -/
theorem claim7_transfer_id_never_set (s : List Transaction) (hs : Reachable s) :
    ∀ t ∈ s, t.transfer_id = none := by
  induction hs with
  | empty => simp
  | add s nid d ty amount descr cp aid cid s' _ hok ih =>
    intro t ht
    rcases hlt : decide (amount < 0) with _ | _
    · have hneg : ¬ amount < 0 := of_decide_eq_false hlt
      simp only [add_transaction_page, if_neg hneg, Except.ok.injEq] at hok
      subst hok
      rcases (by simpa using ht) with ht | ht
      · exact ih t ht
      · simp [ht]
    · have hneg : amount < 0 := of_decide_eq_true hlt
      simp [add_transaction_page, if_pos hneg] at hok
  | void s tid _ ih =>
    intro t ht
    obtain ⟨u, hu, hid⟩ := mem_void_transaction s tid t ht
    rw [hid]
    exact ih u hu
  | transfer s cats nid d amount rate f a descr _ ih =>
    intro t ht
    rcases mem_transfer_funds_page s cats nid d amount rate f a descr t ht with h | h
    · exact ih t h
    · exact h

/-- Witness for C7 at a concrete reachable state: the store holding the
single transaction added by one `add_transaction` call, whose row has
`transfer_id = none`. -/
theorem claim7_transfer_id_never_set_witness :
    Transaction.transfer_id
      { id := 1, date := ⟨2024, 1, 1⟩, type := TransactionType.INCOME, amount := 5,
        description := some "d", counterparty := some "c", is_void := false,
        exchange_rate := none, transfer_id := none, account_id := 1, category_id := 1 } =
      none :=
  claim7_transfer_id_never_set
    [{ id := 1, date := ⟨2024, 1, 1⟩, type := TransactionType.INCOME, amount := 5,
       description := some "d", counterparty := some "c", is_void := false,
       exchange_rate := none, transfer_id := none, account_id := 1, category_id := 1 }]
    (Reachable.add [] 1 ⟨2024, 1, 1⟩ TransactionType.INCOME 5 "d" "c" 1 1 _
      Reachable.empty rfl)
    _ (by simp)

/-- The row filter of app.py `get_profit_loss_data`: transactions dated on
or after the window start and not void. -/
def plFilter (store : List Transaction) (start : Date) : List Transaction :=
  store.filter (fun t => Date.le start t.date && !t.is_void)

/-- The GROUP BY key of `get_profit_loss_data`: (calendar month, type). -/
def plKey (t : Transaction) : (Nat × Nat) × TransactionType := (t.date.monthKey, t.type)

/-- app.py `get_profit_loss_data` grouped rows: one row per distinct
(month, type) key among the filtered transactions, carrying the sum of
their amounts. -/
def get_profit_loss_data (store : List Transaction) (start : Date) :
    List (((Nat × Nat) × TransactionType) × ℚ) :=
  ((plFilter store start).map plKey).dedup.map
    (fun k =>
      (k, (((plFilter store start).filter (fun t => plKey t = k)).map
        (fun t => t.amount)).sum))

/-- One cell of the pivoted monthly table: the grouped row's sum when the
(month, type) row exists, else the `fillna(0)` / missing-column value 0. -/
def pl_cell (store : List Transaction) (start : Date) (m : Nat × Nat)
    (ty : TransactionType) : ℚ :=
  match (get_profit_loss_data store start).find? (fun r => r.1 = (m, ty)) with
  | some r => r.2
  | none => 0

lemma find_mapped_group {K Q : Type} [DecidableEq K] (keys : List K) (f : K → Q) (k : K)
    (hk : k ∈ keys) :
    (keys.map (fun k' => (k', f k'))).find? (fun r => r.1 = k) = some (k, f k) := by
  induction keys with
  | nil => cases hk
  | cons a keys ih =>
    by_cases ha : a = k
    · subst ha
      simp [List.find?_cons]
    · rcases List.mem_cons.mp hk with h | h
      · exact absurd h.symm ha
      · have hd : (decide ((a, f a).1 = k)) = false := decide_eq_false ha
        simp only [List.map_cons, List.find?_cons, hd]
        exact ih h

lemma find_mapped_group_none {K Q : Type} [DecidableEq K] (keys : List K) (f : K → Q)
    (k : K) (hk : k ∉ keys) :
    (keys.map (fun k' => (k', f k'))).find? (fun r => r.1 = k) = none := by
  induction keys with
  | nil => rfl
  | cons a keys ih =>
    simp only [List.mem_cons, not_or] at hk
    have hd : (decide ((a, f a).1 = k)) = false := decide_eq_false (fun h => hk.1 h.symm)
    simp only [List.map_cons, List.find?_cons, hd]
    exact ih hk.2

/-- The three transactions of the spec's monthly-aggregation example:
(2024-01-05, INCOME, 500), (2024-01-20, EXPENSE, 200, void),
(2024-02-01, EXPENSE, 100). -/
def pl_example_store : List Transaction :=
  [{ id := 1, date := ⟨2024, 1, 5⟩, type := TransactionType.INCOME, amount := 500,
     description := none, counterparty := none, is_void := false,
     exchange_rate := none, transfer_id := none, account_id := 1, category_id := 1 },
   { id := 2, date := ⟨2024, 1, 20⟩, type := TransactionType.EXPENSE, amount := 200,
     description := none, counterparty := none, is_void := true,
     exchange_rate := none, transfer_id := none, account_id := 1, category_id := 1 },
   { id := 3, date := ⟨2024, 2, 1⟩, type := TransactionType.EXPENSE, amount := 100,
     description := none, counterparty := none, is_void := false,
     exchange_rate := none, transfer_id := none, account_id := 1, category_id := 1 }]

lemma pl_cell_eq_sum (store : List Transaction) (start : Date) (m : Nat × Nat)
    (ty : TransactionType) :
    pl_cell store start m ty =
      ((store.filter (fun t => Date.le start t.date && !t.is_void &&
        t.date.monthKey = m && t.type = ty)).map (fun t => t.amount)).sum := by
  have hfilter :
      store.filter (fun t => Date.le start t.date && !t.is_void &&
          t.date.monthKey = m && t.type = ty) =
        (plFilter store start).filter (fun t => plKey t = (m, ty)) := by
    rw [plFilter, List.filter_filter]
    apply List.filter_congr
    intro t _
    by_cases h1 : t.date.monthKey = m <;> by_cases h2 : t.type = ty <;>
      simp [plKey, Prod.ext_iff, h1, h2, Bool.and_comm, Bool.and_assoc, Bool.and_left_comm]
  rw [hfilter]
  by_cases hk : (m, ty) ∈ ((plFilter store start).map plKey).dedup
  · rw [pl_cell, get_profit_loss_data, find_mapped_group _ _ _ hk]
  · rw [pl_cell, get_profit_loss_data, find_mapped_group_none _ _ _ hk]
    have hnone : (plFilter store start).filter (fun t => plKey t = (m, ty)) = [] := by
      rw [List.filter_eq_nil_iff]
      intro t ht hmem
      exact hk (List.mem_dedup.mpr (List.mem_map.mpr
        ⟨t, ht, of_decide_eq_true hmem⟩))
    rw [hnone]
    rfl

/-- C6: each pivoted monthly cell equals the sum of amounts of the
non-void, in-window transactions of that calendar month and type (0 when
no such transaction exists), and on the spec's example store January
reports INCOME=500, EXPENSE=0 and February reports INCOME=0, EXPENSE=100. -/
theorem claim6_monthly_totals :
    (∀ (store : List Transaction) (start : Date) (m : Nat × Nat) (ty : TransactionType),
      pl_cell store start m ty =
        ((store.filter (fun t => Date.le start t.date && !t.is_void &&
          t.date.monthKey = m && t.type = ty)).map (fun t => t.amount)).sum) ∧
    (pl_cell pl_example_store ⟨2023, 12, 1⟩ (2024, 1) TransactionType.INCOME = 500 ∧
     pl_cell pl_example_store ⟨2023, 12, 1⟩ (2024, 1) TransactionType.EXPENSE = 0 ∧
     pl_cell pl_example_store ⟨2023, 12, 1⟩ (2024, 2) TransactionType.INCOME = 0 ∧
     pl_cell pl_example_store ⟨2023, 12, 1⟩ (2024, 2) TransactionType.EXPENSE = 100) := by
  refine ⟨pl_cell_eq_sum, ?_, ?_, ?_, ?_⟩ <;>
    rw [pl_cell_eq_sum] <;>
    norm_num [pl_example_store, Date.le, Date.monthKey, List.filter,
      decide_income_eq_expense, decide_expense_eq_income]

/-- models.py user roles: `Enum('admin', 'viewer')`. -/
inductive Role where
  | admin
  | viewer
deriving DecidableEq, Repr

/-- models.py `User`: username (unique), stored password hash, role. -/
structure User where
  id : Nat
  username : String
  password_hash : String
  role : Role
deriving DecidableEq, Repr

/-- The seed tables touched by database.py `init_db`. -/
structure SeedState where
  accounts : List Account
  categories : List Category
  users : List User
deriving DecidableEq, Repr

/-- database.py `init_db` account seeding step: add the account only when
no row with that currency code exists; new rows get the next autoincrement
id. -/
def ensure_account (accs : List Account) (nm cur : String) : List Account :=
  if accs.any (fun a => a.currency_code = cur) then accs
  else accs ++ [{ id := accs.length + 1, name := nm, currency_code := cur }]

/-- database.py `init_db` category seeding step: add the category only when
no row with that name exists. -/
def ensure_category (cats : List Category) (nm : String) : List Category :=
  if cats.any (fun c => c.name = nm) then cats
  else cats ++ [{ id := cats.length + 1, name := nm }]

/-- database.py `init_db` user seeding step: add the user only when no row
with that username exists. -/
def ensure_user (us : List User) (nm hash : String) (r : Role) : List User :=
  if us.any (fun u => u.username = nm) then us
  else us ++ [{ id := us.length + 1, username := nm, password_hash := hash, role := r }]

/-- database.py `default_categories` name list, in seed order. -/
def default_category_names : List String :=
  ["Client Revenue", "Software Expense", "Salary", "Office Supplies", "Marketing",
   "Contractor Fees", "Inter-Account Transfer In", "Inter-Account Transfer Out",
   "Other Income", "Other Expense"]

/-- database.py `init_db`: seed the USD account then the INR account (each
only if its currency code is missing), each default category (only if its
name is missing), then the admin and viewer users (only if the username is
missing). The password hashes are salted afresh on every run, so they are
parameters here. -/
def init_db (s : SeedState) (admin_password_hash viewer_password_hash : String) : SeedState :=
  { accounts :=
      ensure_account (ensure_account s.accounts "US Business Account" "USD")
        "India Business Account" "INR",
    categories := default_category_names.foldl ensure_category s.categories,
    users :=
      ensure_user (ensure_user s.users "admin" admin_password_hash Role.admin)
        "viewer" viewer_password_hash Role.viewer }

set_option maxHeartbeats 2000000 in
/-- C8: running `init_db` a second time (with fresh password hashes) leaves
the store exactly as after the first run: two accounts (one per currency),
the fixed ten default categories, two users, and no duplicated natural
keys. -/
theorem claim8_init_db_idempotent (aHash vHash aHash' vHash' : String) :
    init_db (init_db ⟨[], [], []⟩ aHash vHash) aHash' vHash' =
      init_db ⟨[], [], []⟩ aHash vHash ∧
    (init_db ⟨[], [], []⟩ aHash vHash).accounts = [usd_account, inr_account] ∧
    (init_db ⟨[], [], []⟩ aHash vHash).categories = default_categories ∧
    (init_db ⟨[], [], []⟩ aHash vHash).users.map User.username = ["admin", "viewer"] ∧
    ((init_db ⟨[], [], []⟩ aHash vHash).accounts.map Account.currency_code).Nodup ∧
    ((init_db ⟨[], [], []⟩ aHash vHash).categories.map Category.name).Nodup ∧
    ((init_db ⟨[], [], []⟩ aHash vHash).users.map User.username).Nodup := by
  refine ⟨rfl, rfl, rfl, rfl, ?_, ?_, ?_⟩
  · show (([usd_account, inr_account] : List Account).map Account.currency_code).Nodup
    decide
  · show (default_categories.map Category.name).Nodup
    decide
  · show (["admin", "viewer"] : List String).Nodup
    decide

/-- Outcome of the remote rate request in app.py
`fetch_and_store_exchange_rate`: either a parsed rate, or any network or
parse failure (`requests.RequestException` or any other exception). -/
inductive RateFetchResult where
  | success (rate : ℚ)
  | failure
deriving DecidableEq

/-- The update branch of `fetch_and_store_exchange_rate`: overwrite the
rate of the first stored row whose date is today. -/
def update_first_rate : List ExchangeRate → Date → ℚ → List ExchangeRate
  | [], _, _ => []
  | er :: rest, d, r =>
    if er.date = d then { er with usd_to_inr := r } :: rest
    else er :: update_first_rate rest d r

/-- app.py `fetch_and_store_exchange_rate`: on success, upsert a row keyed
by today's date (insert when absent, overwrite when present) and return
the rate; on any network or parse failure, return the fallback constant
83.0 without touching the stored rates. -/
def fetch_and_store_exchange_rate (rates : List ExchangeRate) (today : Date)
    (resp : RateFetchResult) : List ExchangeRate × ℚ :=
  match resp with
  | RateFetchResult.success current_rate =>
    match rates.find? (fun r => r.date = today) with
    | none =>
      (rates ++ [{ id := rates.length + 1, date := today, usd_to_inr := current_rate }],
       current_rate)
    | some _ => (update_first_rate rates today current_rate, current_rate)
  | RateFetchResult.failure => (rates, 83)

/-- C9: for every simulated network or parse failure, the rate fetch
returns the fallback constant 83.0 (without raising) and leaves the stored
exchange-rate rows unchanged. -/
theorem claim9_fetch_failure_fallback (rates : List ExchangeRate) (today : Date) :
    fetch_and_store_exchange_rate rates today RateFetchResult.failure = (rates, 83) :=
  rfl

/-- database.py `verify_password`. `b64decode` abstracts
`base64.b64decode`, with `none` standing for a raised decoding error;
`kdf` abstracts PBKDF2HMAC (SHA-256, 100000 iterations, 32-byte output)
applied to the UTF-8 encoding of the password. The source's try/except
maps any raised error to False; a decoded blob shorter than 16 bytes
yields a short salt and an over-short stored key rather than an error,
exactly as Python slicing does. -/
def verify_password (kdf : String → List Nat → List Nat)
    (b64decode : String → Option (List Nat))
    (stored_hash provided_password : String) : Bool :=
  match b64decode stored_hash with
  | none => false
  | some decoded =>
    let salt_from_db := decoded.take 16
    let key_from_db := decoded.drop 16
    let new_key := kdf provided_password salt_from_db
    decide (new_key = key_from_db)

/-- C10: password verification never raises: a stored hash that fails to
decode yields False, one whose decoded form is too short to hold a 16-byte
salt yields False, and verification returns True exactly when the key
derived from the provided password with the stored salt equals the stored
derived key. -/
theorem claim10_verify_password (kdf : String → List Nat → List Nat)
    (b64decode : String → Option (List Nat)) (stored pw : String)
    (hlen : ∀ p s, (kdf p s).length = 32) :
    (b64decode stored = none → verify_password kdf b64decode stored pw = false) ∧
    (∀ d, b64decode stored = some d → d.length < 16 →
      verify_password kdf b64decode stored pw = false) ∧
    (verify_password kdf b64decode stored pw = true ↔
      ∃ d, b64decode stored = some d ∧ kdf pw (d.take 16) = d.drop 16) := by
  refine ⟨?_, ?_, ?_⟩
  · intro h
    simp [verify_password, h]
  · intro d hd hlt
    have hne : kdf pw (d.take 16) ≠ d.drop 16 := by
      intro heq
      have h1 := hlen pw (d.take 16)
      rw [heq] at h1
      simp [List.length_drop] at h1
      omega
    simp [verify_password, hd, hne]
  · rcases hb : b64decode stored with _ | d <;> simp [verify_password, hb]

/-- Witness for C10: a stored hash that fails to decode verifies as False,
under a key-derivation function of constant 32-byte output. -/
theorem claim10_verify_password_witness :
    verify_password (fun _ _ => List.replicate 32 0) (fun _ => none) "not-base64" "pw" =
      false :=
  (claim10_verify_password (fun _ _ => List.replicate 32 0) (fun _ => none)
    "not-base64" "pw" (fun _ _ => by simp)).1 rfl

end RovAccounting
